import Mathlib

/-
Verification of the finartha personal-finance assistant core
(src/core/ai_services.py, src/core/analytics.py, src/ui/forecast.py,
src/ui/sidebar.py) as a shallow embedding in Lean 4.

Modelling conventions:
- Python floats / Decimals are modelled as exact rationals (Rat).
- A pandas DataFrame of transactions is a `List Txn`; `_prep_df` date
  coercion is implicit (dates are day ordinals, `datetime.date.toordinal`).
- Python strings are Lean strings; the Python string methods used by the
  code (strip / lower / upper / replace / split / `in`) are re-implemented
  structurally over `List Char` so that concrete instances evaluate in the
  kernel.  `\d` of the sanitising regex is modelled as ASCII digits.
- Python stable sorts (`sorted`, pandas `sort_values`) are modelled with
  `List.insertionSort`, which is a stable sort; pandas tie order under
  `sort_values` is unspecified, so any stable model is admissible.
- External network calls (Gemini, Granite) are oracles passed in as
  functions returning `Except` values; raising is `Except.error`.
- `st.cache_data` memoisation is semantically the identity and is omitted.
-/

namespace Finartha

/-! ### Python string primitives (structural models of `str` methods) -/

/-- Python `str.strip()` on a character list: drop whitespace at both ends. -/
def strip_chars (l : List Char) : List Char :=
  ((l.dropWhile Char.isWhitespace).reverse.dropWhile Char.isWhitespace).reverse

/-- Python `str.strip()`. -/
def pyStrip (s : String) : String := String.mk (strip_chars s.toList)

/-- Python `str.lower()` (ASCII model). -/
def pyLower (s : String) : String := String.mk (s.toList.map Char.toLower)

/-- Python `str.upper()` (ASCII model). -/
def pyUpper (s : String) : String := String.mk (s.toList.map Char.toUpper)

/-- One fuelled pass of Python `str.replace`: replace every non-overlapping
occurrence of `pat` (nonempty) left to right. Fuel bounds the recursion by
the length of the scanned list. -/
def replace_fuel (pat rep : List Char) : Nat → List Char → List Char
  | _, [] => []
  | 0, l => l
  | fuel + 1, c :: cs =>
    if pat.isPrefixOf (c :: cs) then
      rep ++ replace_fuel pat rep fuel ((c :: cs).drop pat.length)
    else
      c :: replace_fuel pat rep fuel cs

/-- Python `s.replace(pat, rep)` (all occurrences; only ever called with a
nonempty pattern in the source). -/
def pyReplace (s pat rep : String) : String :=
  if pat.toList.isEmpty then s
  else String.mk (replace_fuel pat.toList rep.toList s.toList.length s.toList)

/-- Python `needle in hay` membership on lists (substring search helper). -/
def list_contains (needle : List Char) : List Char → Bool
  | [] => needle.isEmpty
  | c :: t => needle.isPrefixOf (c :: t) || list_contains needle t

/-- Python `needle in hay` substring containment for strings. -/
def pySubstrIn (needle hay : String) : Bool :=
  list_contains needle.toList hay.toList

/-- Python `str.split(sep)` for a single-character separator. -/
def split_on_char (sep : Char) (l : List Char) : List (List Char) :=
  l.foldr
    (fun c acc =>
      match acc with
      | [] => [[c]]
      | cur :: rest => if c == sep then [] :: cur :: rest else (c :: cur) :: rest)
    [[]]

/-- Numeric value of a list of ASCII digit characters. -/
def digits_to_nat (l : List Char) : Nat :=
  l.foldl (fun n c => n * 10 + (c.toNat - 48)) 0

/-! ### Data model (sidebar transaction rows, `_prep_df`) -/

/-- One transaction row: `{date, category, amount, note}`.  The date is a
day ordinal (`datetime.date.toordinal`); the amount is the numeric value
after `pd.to_numeric(...).fillna(0.0)`. -/
structure Txn where
  date : Int
  category : String
  amount : Rat
  note : String
deriving DecidableEq, Repr

/-- `ui/forecast.py _prep_df`: `is_income` marks rows whose category,
stripped and lowercased, equals "income". -/
def is_income (t : Txn) : Bool := pyLower (pyStrip t.category) == "income"

/-- `_window(df, start, end)`: rows with `start <= date <= end`. -/
def window (df : List Txn) (start stop : Int) : List Txn :=
  df.filter (fun t => decide (start ≤ t.date ∧ t.date ≤ stop))

/-- Sum of the `amount` column. -/
def sum_amounts (l : List Txn) : Rat := (l.map Txn.amount).sum

/-- pandas `groupby("category")` group keys: the distinct categories,
sorted (pandas sorts group keys ascending by default). -/
def group_keys (l : List Txn) : List String :=
  List.insertionSort (fun a b : String => a ≤ b) (l.map Txn.category).dedup

/-- Grouped sum of `amount` for one category (`groupby("category")["amount"].sum()`
for that key; also models `prev_by_cat.get(cat, 0.0)`, which returns 0 for an
absent key exactly as the empty-filter sum does). -/
def cat_sum (l : List Txn) (c : String) : Rat :=
  sum_amounts (l.filter (fun t => t.category == c))

/-- `groupby("category")["amount"].sum().sort_values(ascending=False)`. -/
def by_cat_desc (l : List Txn) : List (String × Rat) :=
  List.insertionSort (fun a b : String × Rat => b.2 ≤ a.2)
    ((group_keys l).map (fun c => (c, cat_sum l c)))

/-- `... .head(5)`: top five current expense categories. -/
def top_categories (l : List Txn) : List (String × Rat) := (by_cat_desc l).take 5

/-- One element of `category_spikes`. -/
structure Spike where
  category : String
  cur : Rat
  prev : Rat
  delta : Rat
  pct_change : Rat
deriving DecidableEq, Repr

/-- Build one spike record from a `(category, current sum)` pair and the
previous-window expense rows (`_last_n_days_metrics` loop body). -/
def mk_spike (prevExp : List Txn) (cv : String × Rat) : Spike :=
  let pv := cat_sum prevExp cv.1
  let change := cv.2 - pv
  let pct : Rat := if 0 < pv then change / pv * 100 else (if 0 < cv.2 then 100 else 0)
  ⟨cv.1, cv.2, pv, change, pct⟩

/-- The sort key `lambda x: (-x["pct_change"], -x["delta"])` as an order:
`a` comes no later than `b` iff `a` has larger `pct_change`, or equal
`pct_change` and no smaller `delta`. -/
def spike_order (a b : Spike) : Prop :=
  b.pct_change < a.pct_change ∨ (a.pct_change = b.pct_change ∧ b.delta ≤ a.delta)

instance : DecidableRel spike_order := fun a b => by
  unfold spike_order; infer_instance

instance : IsTotal Spike spike_order :=
  ⟨fun a b => by
    unfold spike_order
    rcases lt_trichotomy a.pct_change b.pct_change with h | h | h
    · exact Or.inr (Or.inl h)
    · rcases le_total b.delta a.delta with hd | hd
      · exact Or.inl (Or.inr ⟨h, hd⟩)
      · exact Or.inr (Or.inr ⟨h.symm, hd⟩)
    · exact Or.inl (Or.inl h)⟩

instance : IsTrans Spike spike_order :=
  ⟨fun a b c hab hbc => by
    unfold spike_order at *
    rcases hab with h1 | ⟨e1, d1⟩ <;> rcases hbc with h2 | ⟨e2, d2⟩
    · exact Or.inl (h2.trans h1)
    · exact Or.inl (e2 ▸ h1)
    · exact Or.inl (by rw [e1]; exact h2)
    · exact Or.inr ⟨e1.trans e2, d2.trans d1⟩⟩

/-- `category_spikes`: spike records for the top-5 current categories,
sorted by `(-pct_change, -delta)`, keeping the top 3. -/
def category_spikes (curExp prevExp : List Txn) : List Spike :=
  (List.insertionSort spike_order ((top_categories curExp).map (mk_spike prevExp))).take 3

/-- The derived `MetricsSnapshot` returned by `_last_n_days_metrics`
(`current`/`previous` sub-dicts flattened into prefixed fields). -/
structure Snapshot where
  period_days : Nat
  income : Rat
  expense : Rat
  net : Rat
  savings_rate_pct : Rat
  top_categories : List (String × Rat)
  prev_income : Rat
  prev_expense : Rat
  prev_net : Rat
  category_spikes : List Spike
deriving DecidableEq, Repr

/-- Current window `[today - days + 1, today]`. -/
def current_window (df : List Txn) (today : Int) (days : Nat) : List Txn :=
  window df (today - days + 1) today

/-- Previous window `[today - 2*days + 1, today - days]` (that is,
`[prev_start, prev_end]` with `prev_start = start - days`, `prev_end = start - 1`). -/
def previous_window (df : List Txn) (today : Int) (days : Nat) : List Txn :=
  window df (today - 2 * days + 1) (today - days)

/-- Rows of a window that are not income. -/
def expense_rows_metrics (l : List Txn) : List Txn := l.filter (fun t => !(is_income t))

/-- Rows of a window that are income. -/
def income_rows_metrics (l : List Txn) : List Txn := l.filter is_income

/-- `ui/forecast.py _last_n_days_metrics(df, days)`, with `today`
(`datetime.today().date()`) made an explicit parameter. -/
def last_n_days_metrics (df : List Txn) (today : Int) (days : Nat) : Snapshot :=
  let cur := current_window df today days
  let prev := previous_window df today days
  let cur_income := sum_amounts (income_rows_metrics cur)
  let curExpRows := expense_rows_metrics cur
  let cur_exp := sum_amounts curExpRows
  let cur_net := cur_income - cur_exp
  let cur_savings_rate := if 0 < cur_income then cur_net / cur_income * 100 else 0
  let prev_income := sum_amounts (income_rows_metrics prev)
  let prevExpRows := expense_rows_metrics prev
  let prev_exp := sum_amounts prevExpRows
  let prev_net := prev_income - prev_exp
  { period_days := days
    income := cur_income
    expense := cur_exp
    net := cur_net
    savings_rate_pct := cur_savings_rate
    top_categories := top_categories curExpRows
    prev_income := prev_income
    prev_expense := prev_exp
    prev_net := prev_net
    category_spikes := category_spikes curExpRows prevExpRows }

/-! ### Weather verdict (`_local_status`) -/

/-- The four weather statuses. -/
inductive Weather
  | THUNDERSTORMS
  | CLEAR_SKIES
  | PARTLY_CLOUDY
  | LIGHT_SHOWERS
deriving DecidableEq, Repr

/-- The status name string used in the returned dicts. -/
def weather_name : Weather → String
  | .THUNDERSTORMS => "THUNDERSTORMS"
  | .CLEAR_SKIES => "CLEAR_SKIES"
  | .PARTLY_CLOUDY => "PARTLY_CLOUDY"
  | .LIGHT_SHOWERS => "LIGHT_SHOWERS"

/-- `max((s["pct_change"] for s in spikes), default=0)`: the maximum
`pct_change`, or 0 for an empty list (a negative maximum is kept, not
clamped to 0). -/
def big_spike (spikes : List Spike) : Rat :=
  match spikes.map Spike.pct_change with
  | [] => 0
  | x :: xs => xs.foldl max x

/-- `ui/forecast.py _local_status(metrics)`. -/
def local_status (m : Snapshot) : Weather × String :=
  if m.income ≤ 0 ∧ 0 < m.expense then (.THUNDERSTORMS, "⛈️")
  else if 0 ≤ m.net ∧ 20 ≤ m.savings_rate_pct ∧ big_spike m.category_spikes < 15 then
    (.CLEAR_SKIES, "☀️")
  else if 0 ≤ m.net ∧ (5 ≤ m.savings_rate_pct ∨ big_spike m.category_spikes < 25) then
    (.PARTLY_CLOUDY, "🌤️")
  else if m.net < 0 ∧ |m.net| ≤ (2 / 10 : Rat) * max m.income 1 then
    (.LIGHT_SHOWERS, "🌧️")
  else (.THUNDERSTORMS, "⛈️")

/-- The spec's reading of `_local_status`: five rules evaluated in order,
first match wins (the fifth rule is the unconditional default). -/
def weather_rules : List ((Snapshot → Bool) × (Weather × String)) :=
  [ (fun m => decide (m.income ≤ 0 ∧ 0 < m.expense), (.THUNDERSTORMS, "⛈️")),
    (fun m => decide (0 ≤ m.net ∧ 20 ≤ m.savings_rate_pct ∧ big_spike m.category_spikes < 15),
      (.CLEAR_SKIES, "☀️")),
    (fun m => decide (0 ≤ m.net ∧ (5 ≤ m.savings_rate_pct ∨ big_spike m.category_spikes < 25)),
      (.PARTLY_CLOUDY, "🌤️")),
    (fun m => decide (m.net < 0 ∧ |m.net| ≤ (2 / 10 : Rat) * max m.income 1),
      (.LIGHT_SHOWERS, "🌧️")),
    (fun _ => true, (.THUNDERSTORMS, "⛈️")) ]

/-- First-match rule evaluation (spec side of the refinement for the
weather verdict). -/
def first_match (rules : List ((Snapshot → Bool) × (Weather × String))) (m : Snapshot) :
    Weather × String :=
  match rules with
  | [] => (.THUNDERSTORMS, "⛈️")
  | (c, v) :: rest => if c m then v else first_match rest m

/-- Test fixture: a snapshot with the given income and expense, net and
savings rate derived exactly as `_last_n_days_metrics` derives them, and
the given spike list. -/
def snapshot_of (inc exp : Rat) (spikes : List Spike) : Snapshot :=
  { period_days := 30
    income := inc
    expense := exp
    net := inc - exp
    savings_rate_pct := if 0 < inc then (inc - exp) / inc * 100 else 0
    top_categories := []
    prev_income := 0
    prev_expense := 0
    prev_net := 0
    category_spikes := spikes }

/-! ### AI weather verdict: JSON parsing and the local fallback
(`_parse_json_maybe`, `compute_forecast` lines after the metrics are built) -/

/-- Values of Python `json.loads`. -/
inductive Json where
  | null
  | bool (b : Bool)
  | num (q : Rat)
  | str (s : String)
  | arr (xs : List Json)
  | obj (fields : List (String × Json))

/-- Python truthiness of a decoded JSON value (`not obj`). -/
def pyTruthy : Json → Bool
  | .null => false
  | .bool b => b
  | .num q => !(q == 0)
  | .str s => !(s == "")
  | .arr xs => !xs.isEmpty
  | .obj fs => !fs.isEmpty

/-- Python `"status" in obj` for a decoded JSON value: key membership for a
dict, element equality for a list, substring for a string, and `none` for
the types where `in` raises `TypeError` (int/float/bool/None). -/
def pyContainsStatus : Json → Option Bool
  | .obj fs => some (fs.any (fun kv => kv.1 == "status"))
  | .arr xs => some (xs.any (fun j => match j with | .str s => s == "status" | _ => false))
  | .str s => some (pySubstrIn "status" s)
  | _ => none

/-- Index of the first occurrence of `c` (Python `str.find`, as an Option). -/
def first_index (c : Char) : List Char → Option Nat
  | [] => none
  | x :: xs => if x == c then some 0 else (first_index c xs).map (· + 1)

/-- Index of the last occurrence of `c` (Python `str.rfind`, as an Option). -/
def last_index (c : Char) (l : List Char) : Option Nat :=
  (first_index c l.reverse).map (fun i => l.length - 1 - i)

/-- `ui/forecast.py _parse_json_maybe(text)`, with `json.loads` passed in
as the oracle `loads` (`none` models a raised decode error). -/
def parse_json_maybe (loads : String → Option Json) (text : String) : Option Json :=
  match loads text with
  | some j => some j
  | none =>
    let cs := text.toList
    match first_index '{' cs, last_index '}' cs with
    | some s, some e =>
      if s < e then loads (String.mk ((cs.drop s).take (e + 1 - s))) else none
    | some _, none => none
    | none, _ => none

/-- External number formatting used by `_fallback_headline`:
`money0` is the Python format spec `,.0f`, `pct0` is `.0f`. -/
structure NumberFmt where
  money0 : Rat → String
  pct0 : Rat → String

/-- `ui/forecast.py _fallback_headline(status, m)`. -/
def fallback_headline (fm : NumberFmt) (w : Weather) (m : Snapshot) : String :=
  match w with
  | .CLEAR_SKIES =>
    "Clear skies — healthy net (₹" ++ fm.money0 m.net ++ ") and " ++
      fm.pct0 m.savings_rate_pct ++ "% savings rate."
  | .PARTLY_CLOUDY => "Partly cloudy — mostly on track with a few minor hotspots."
  | .LIGHT_SHOWERS => "Light showers — caution: spending is pressuring savings."
  | .THUNDERSTORMS => "Thunderstorms — urgent attention needed to stabilize cash flow."

/-- The deterministic fallback object synthesized by `compute_forecast`
from the local rule (both the `_get_gemini` error path and the parse
failure path build exactly this dict). -/
def fallback_obj (fm : NumberFmt) (m : Snapshot) : Json :=
  let st := local_status m
  Json.obj
    [ ("status", Json.str (weather_name st.1)),
      ("emoji", Json.str st.2),
      ("headline", Json.str (fallback_headline fm st.1 m)),
      ("explanation", Json.str ""),
      ("actions", Json.arr [Json.str "Pre-commit a small saving", Json.str "Cap top category for 2 weeks"]),
      ("score", Json.num (if st.1 = Weather.CLEAR_SKIES ∨ st.1 = Weather.PARTLY_CLOUDY then 65 else 35)) ]

/-- Field lookup in a decoded JSON object. -/
def json_field (j : Json) (k : String) : Option Json :=
  match j with
  | .obj fs => (fs.find? (fun kv => kv.1 == k)).map Prod.snd
  | _ => none

/-- `ui/forecast.py compute_forecast`, the part after the metrics snapshot
is built and `_get_gemini` has succeeded (lines 199–215):
`raw_res` is the outcome of `_call_gemini` (`Except.error` = it raised),
`loads` is the `json.loads` oracle.  The result is the returned `obj`
dict; `none` models the `TypeError` that `"status" not in obj` raises on a
truthy non-container value (that check sits outside the `try`). -/
def compute_forecast_obj (loads : String → Option Json) (fm : NumberFmt)
    (raw_res : Except Unit String) (m : Snapshot) : Option Json :=
  let objOpt : Option Json :=
    match raw_res with
    | .error _ => none
    | .ok raw =>
      match parse_json_maybe loads raw with
      | none => none
      | some j => if pyTruthy j then some j else none
  match objOpt with
  | none => some (fallback_obj fm m)
  | some j =>
    match pyContainsStatus j with
    | none => none
    | some true => some j
    | some false => some (fallback_obj fm m)

/-! ### Trend forecast (`core/analytics.py get_forecast`) -/

/-- `df[df['category'] != 'Income']`: the expense filter of `get_forecast`
(case-sensitive, no trimming or lowercasing). -/
def expense_rows_forecast (df : List Txn) : List Txn :=
  df.filter (fun t => !(t.category == "Income"))

/-- pandas `groupby(date)` group keys: distinct day ordinals, ascending. -/
def unique_days (l : List Txn) : List Int :=
  List.insertionSort (fun a b : Int => a ≤ b) (l.map Txn.date).dedup

/-- `expense_df.groupby(date)["amount"].sum()` as (ordinal, daily sum) pairs. -/
def daily_expenses (l : List Txn) : List (Int × Rat) :=
  (unique_days l).map (fun d => (d, sum_amounts (l.filter (fun t => t.date == d))))

/-- Slope of `np.polyfit(x, y, 1)`: the ordinary-least-squares line
`(n·Σxy − Σx·Σy) / (n·Σx² − (Σx)²)` (the unique least-squares solution
whenever the x's are not all equal; degenerate inputs are guarded out by
`get_forecast`'s length checks except when all rows share one day). -/
def fit_slope (pts : List (Int × Rat)) : Rat :=
  let n : Rat := (pts.length : Rat)
  let sx := (pts.map (fun p => ((p.1 : Int) : Rat))).sum
  let sy := (pts.map Prod.snd).sum
  let sxy := (pts.map (fun p => ((p.1 : Int) : Rat) * p.2)).sum
  let sxx := (pts.map (fun p => ((p.1 : Int) : Rat) ^ 2)).sum
  (n * sxy - sx * sy) / (n * sxx - sx ^ 2)

/-- Intercept of `np.polyfit(x, y, 1)`: `(Σy − slope·Σx) / n`. -/
def fit_intercept (pts : List (Int × Rat)) : Rat :=
  let n : Rat := (pts.length : Rat)
  let sx := (pts.map (fun p => ((p.1 : Int) : Rat))).sum
  let sy := (pts.map Prod.snd).sum
  (sy - fit_slope pts * sx) / n

/-- `daily_expenses["ordinal"].max()`. -/
def last_day (pts : List (Int × Rat)) : Int :=
  match pts.map Prod.fst with
  | [] => 0
  | x :: xs => xs.foldl max x

/-- `poly(np.arange(last+1, last+31))` followed by the clamp
`future_preds[future_preds < 0] = 0`: the 30 projected day values. -/
def forecast_preds (pts : List (Int × Rat)) : List Rat :=
  (List.range 30).map (fun i : Nat =>
    let x : Rat := ((last_day pts + 1 + (i : Int)) : Int)
    let y := fit_slope pts * x + fit_intercept pts
    if y < 0 then 0 else y)

/-- `total_forecast = float(np.sum(future_preds))`. -/
def total_forecast (pts : List (Int × Rat)) : Rat := (forecast_preds pts).sum

/-- `avg_daily_spend`: mean of the per-day aggregated expense sums. -/
def avg_daily (pts : List (Int × Rat)) : Rat :=
  ((pts.map Prod.snd).sum) / ((pts.length : Nat) : Rat)

/-- The narrative string returned by `get_forecast`; `fmt` is the external
Python format spec `,.2f`. -/
def forecast_message (fmt : Rat → String) (total avg : Rat) : String :=
  "### 🗓️ 30-Day Expense Forecast\n\n" ++
    "Based on your recent spending habits, you are projected to spend approximately **₹" ++
    fmt total ++ "** over the next 30 days.\n\n" ++
    "*Your average daily spend has been **₹" ++ fmt avg ++ "**.*\n\n" ++
    "> **Disclaimer:** This is a simple trend-based projection and may not account for large, irregular expenses."

/-- `core/analytics.py get_forecast(df)` (`df.empty or len(df) < 3` is
equivalent to `len(df) < 3`). -/
def get_forecast (fmt : Rat → String) (df : List Txn) : String :=
  if df.length < 3 then
    "Not enough transaction data to generate a forecast. Please add more entries."
  else
    let expense_df := expense_rows_forecast df
    if expense_df.length < 3 then
      "Not enough expense data to generate a forecast. Please add more expense entries."
    else
      let daily := daily_expenses expense_df
      forecast_message fmt (total_forecast daily) (avg_daily daily)

/-! ### Intent router (`core/ai_services.py`) -/

/-- Python exceptions distinguished by the router's two `except` clauses. -/
inductive PyErr where
  | googleAPICallError (msg : String)
  | other (msg : String)
deriving DecidableEq, Repr

/-- The message embedded in the exception (Python `{e}`). -/
def py_err_detail : PyErr → String
  | .googleAPICallError m => m
  | .other m => m

/-- The user-facing apology string produced by the router's two `except`
clauses. -/
def apology_string : PyErr → String
  | .googleAPICallError m =>
    "Sorry, there was an issue with the AI service: API call failed. Details: " ++ m
  | .other m => "An unexpected error occurred while processing your request: " ++ m

/-- The external collaborators of the router: `gemini` is
`gemini_model.generate_content(...).text` (used for both classification
and generation), `granite` is `granite_client.predict(prompt, "/predict")`,
`render_table` is `DataFrame.to_string(index=False)`, and `fmt_money2` is
the Python `,.2f` format spec used inside `get_forecast`.  `Except.error`
models a raised exception. -/
structure AIEnv where
  gemini : String → Except PyErr String
  granite : String → Except PyErr String
  render_table : List Txn → String
  fmt_money2 : Rat → String

/-- The fixed Granite categorization prompt. -/
def categorize_prompt (description : String) : String :=
  "Categorize the following transaction into one of these: Income, Rent/EMI, Groceries, Utilities, Transport, Investment, Other. Transaction: \x27" ++
    description ++ "\x27"

/-- `core/ai_services.py get_transaction_category(description)`: Granite
call with the fallback to "Other" on any exception. -/
def get_transaction_category (env : AIEnv) (description : String) : String :=
  match env.granite (categorize_prompt description) with
  | .ok c => c
  | .error _ => "Other"

/-- The intent-classifier prompt (the f-string `classifier_prompt`). -/
def classifier_prompt (user_query : String) : String :=
  "\n    You are an intelligent routing system for a financial assistant app. Classify the user\x27s request into ONE of the following categories based on their query. Respond with only the category name.\n\n    Categories:\n    - \x27BUDGETING\x27: For questions about creating or analyzing a spending budget.\n    - \x27FORECASTING\x27: For questions about future spending projections or predictions.\n    - \x27CATEGORIZATION\x27: For direct requests to categorize a single transaction description (e.g., \x22categorize starbucks coffee\x22).\n    - \x27SAVINGS_INVESTMENT\x27: For questions about saving money, investment plans, or financial goals.\n    - \x27TAX_INFO\x27: For questions related to income tax, deductions, or tax planning.\n    - \x27CASH_MANAGEMENT\x27: For questions about cash flow, income vs. expenses, or managing money.\n    - \x27REPORT_SUMMARY\x27: For requests to summarize spending, find top expenses, or general data analysis.\n    - \x27GENERAL_QUERY\x27: For all other financial questions, advice, or conversations.\n\n    User request: \x22" ++
    user_query ++ "\x22\n    Category:\n    "

/-- `user_query.lower().replace("categorize", "").strip()`. -/
def stripped_description (q : String) : String :=
  pyStrip (pyReplace (pyLower q) "categorize" "")

/-- The GENERAL_QUERY system prompt (also the `dict.get` default). -/
def general_query_prompt : String :=
  "You are FinBuddy, a helpful and friendly financial assistant. Answer the user\x27s question concisely and clearly based on their request and the provided context of their recent financial transactions."

/-- The `system_prompts` dict. -/
def system_prompts : List (String × String) :=
  [ ("BUDGETING", "You are a helpful financial advisor. Create a simple, actionable monthly budget based on the user\x27s request and their transaction history. Present it clearly in markdown."),
    ("SAVINGS_INVESTMENT", "You are a financial planning assistant. Provide guidance on savings strategies or investment options based on the user\x27s query and financial data. Include a disclaimer that this is not professional financial advice."),
    ("TAX_INFO", "You are a tax information assistant for India. Answer user questions about income tax concepts clearly and concisely. Include a disclaimer that you are not a certified tax professional and the user should consult one for official advice."),
    ("CASH_MANAGEMENT", "You are a financial analyst. Explain concepts of cash flow and analyze the provided transaction data to give insights on managing income and expenses."),
    ("REPORT_SUMMARY", "You are a data analyst. Summarize the provided transaction history, highlighting key insights like top spending categories, spending trends, and total income vs. expenses. Use markdown for clear formatting."),
    ("GENERAL_QUERY", general_query_prompt) ]

/-- `system_prompts.get(intent, system_prompts["GENERAL_QUERY"])`. -/
def system_prompt_for (intent : String) : String :=
  ((system_prompts.find? (fun kv => kv.1 == intent)).map Prod.snd).getD general_query_prompt

/-- The context snippet: most recent 20 transactions rendered as text, or
the fixed placeholder for an empty table. -/
def context_snippet (env : AIEnv) (df : List Txn) : String :=
  if df.isEmpty then "No transactions yet."
  else env.render_table ((List.insertionSort (fun a b : Txn => b.date ≤ a.date) df).take 20)

/-- The body of `get_ai_response`'s `try` block: classification, then
dispatch on substring containment (`"CATEGORIZATION" in intent` first,
then `"FORECASTING" in intent`, else the templated generation call). -/
def get_ai_response_body (env : AIEnv) (user_query : String) (df : List Txn) :
    Except PyErr String := do
  let respText ← env.gemini (classifier_prompt user_query)
  let intent := pyUpper (pyStrip respText)
  if pySubstrIn "CATEGORIZATION" intent then
    let description := stripped_description user_query
    let category := get_transaction_category env description
    pure ("The transaction \x27" ++ description ++ "\x27 is best categorized as: **" ++
      category ++ "**")
  else if pySubstrIn "FORECASTING" intent then
    pure (get_forecast env.fmt_money2 df)
  else
    let system_prompt := system_prompt_for intent
    let full_prompt := system_prompt ++ "\n\nUser Request: " ++ user_query ++
      "\n\nTransaction History (for context):\n" ++ context_snippet env df
    env.gemini full_prompt

/-- `core/ai_services.py get_ai_response(user_query, df)`: the try body
with both `except` clauses converting the exception to an apology string. -/
def get_ai_response (env : AIEnv) (user_query : String) (df : List Txn) : String :=
  match get_ai_response_body env user_query df with
  | .ok s => s
  | .error e => apology_string e

/-! ### Amount parsing and sidebar add/edit (`ui/sidebar.py`) -/

/-- `MAX_AMOUNT_DEC = Decimal("999999999999.9999999999")`. -/
def MAX_AMOUNT_DEC : Rat := (9999999999999999999999 : Rat) / 10 ^ 10

/-- `SLIDER_MIN = 0.0`. -/
def SLIDER_MIN : Rat := 0

/-- `SLIDER_MAX = 100_000.0`. -/
def SLIDER_MAX : Rat := 100000

/-- `SLIDER_STEP = 10_000.0`. -/
def SLIDER_STEP : Rat := 10000

/-- The regex sub `[^\d\.] -> ""`: keep digits and dots (`\d` modelled as
ASCII digits). -/
def sanitize_amount (l : List Char) : List Char :=
  l.filter (fun c => c.isDigit || c == '.')

/-- The multiple-dot collapse: if `t.count(".") > 1` then
`head + "." + "".join(rest)`. -/
def collapse_dots (l : List Char) : List Char :=
  match split_on_char '.' l with
  | p1 :: p2 :: p3 :: rest => p1 ++ '.' :: (p2 ++ p3 ++ rest.flatten)
  | _ => l

/-- `ui/sidebar.py _normalize_amount_text(text)`. -/
def normalize_amount_text (text : String) : String :=
  if text == "" then ""
  else
    let t := pyStrip text
    let t := pyReplace t "," " "
    let t := pyReplace t " " " "
    let t := pyReplace t "INR" ""
    let t := pyReplace t "inr" ""
    let t := pyReplace t "Rs." ""
    let t := pyReplace t "Rs" ""
    let t := pyReplace t "rs" ""
    let t := pyReplace t "रु" ""
    let t := pyReplace t "₹" ""
    let t := String.mk (sanitize_amount t.toList)
    pyStrip (String.mk (collapse_dots t.toList))

/-- Python `Decimal(s)` restricted to the normalized strings (digits and
at most one dot): the value together with the number of fractional digits
(so that `as_tuple().exponent = -fracDigits`); `none` is
`InvalidOperation`. -/
def decimal_of_string (s : String) : Option (Rat × Nat) :=
  match split_on_char '.' s.toList with
  | [ip] =>
    if ip ≠ [] ∧ ip.all Char.isDigit then some (((digits_to_nat ip : Nat) : Rat), 0)
    else none
  | [ip, fp] =>
    if (ip ≠ [] ∨ fp ≠ []) ∧ ip.all Char.isDigit ∧ fp.all Char.isDigit then
      some (((digits_to_nat ip : Nat) : Rat) + ((digits_to_nat fp : Nat) : Rat) / 10 ^ fp.length,
        fp.length)
    else none
  | _ => none

/-- Round to the nearest integer, ties to even (`decimal`'s default
`ROUND_HALF_EVEN`). -/
def round_half_even (q : Rat) : Int :=
  if q - (⌊q⌋ : Rat) < 1 / 2 then ⌊q⌋
  else if 1 / 2 < q - (⌊q⌋ : Rat) then ⌊q⌋ + 1
  else if ⌊q⌋ % 2 = 0 then ⌊q⌋ else ⌊q⌋ + 1

/-- `d.quantize(Decimal("0.0000000001"))`: round half-even to 10 decimal
places. -/
def quantize10 (q : Rat) : Rat := ((round_half_even (q * 10 ^ 10) : Int) : Rat) / 10 ^ 10

/-- `ui/sidebar.py _decimal_from_text(text)`. -/
def decimal_from_text (text : String) : Option Rat :=
  let norm := normalize_amount_text text
  if norm == "" then none
  else
    match decimal_of_string norm with
    | none => none
    | some (d, fracDigits) =>
      if d < 0 ∨ MAX_AMOUNT_DEC < d then none
      else if 10 < fracDigits then some (quantize10 d) else some d

/-- `st.slider(min_value=SLIDER_MIN, max_value=SLIDER_MAX, ...)`: the
widget keeps its session value inside the configured bounds; modelled as
clamping the session value. -/
def slider_widget_value (v : Rat) : Rat := max SLIDER_MIN (min v SLIDER_MAX)

/-- `ui/sidebar.py amount_block(prefix, default_val)`: `mode` is the radio
session value, `slider_session` the slider session value, `text_session`
the text-input session value.  The slider branch is
`Decimal(str(val_f)).quantize(Decimal("0.0000000001"))`; the manual branch
is `_decimal_from_text(...)`. -/
def amount_block (mode : String) (slider_session : Rat) (text_session : String) : Option Rat :=
  if mode == "Use slider (bar)" then some (quantize10 (slider_widget_value slider_session))
  else decimal_from_text text_session

/-- `ui/sidebar.py _append_transaction` (`_force_numeric` is the identity
on the typed model: the amount is already numeric). -/
def append_transaction (df : List Txn) (dt : Int) (category : String) (amount : Rat)
    (note : String) : List Txn :=
  df ++ [⟨dt, category, amount, pyStrip note⟩]

/-- `ui/sidebar.py _update_transaction`: overwrite all four fields of the
row at `idx`. -/
def update_transaction (df : List Txn) (idx : Nat) (dt : Int) (category : String)
    (amount : Rat) (note : String) : List Txn :=
  df.set idx ⟨dt, category, amount, pyStrip note⟩

/-- The sidebar Add button handler: a `none` amount is rejected with an
error and no mutation; otherwise `_append_transaction` runs. -/
def add_action (df : List Txn) (mode : String) (slider_session : Rat) (text_session : String)
    (dt : Int) (category note : String) : List Txn :=
  match amount_block mode slider_session text_session with
  | none => df
  | some d => append_transaction df dt category d note

/-- The sidebar Save-Changes button handler: a `none` amount is rejected
with an error and no mutation; otherwise `_update_transaction` runs. -/
def edit_action (df : List Txn) (idx : Nat) (mode : String) (slider_session : Rat)
    (text_session : String) (dt : Int) (category note : String) : List Txn :=
  match amount_block mode slider_session text_session with
  | none => df
  | some d => update_transaction df idx dt category d note

/-! ### Concrete fixtures used by counterexamples and witnesses -/

/-- Fixture: one income and one matching expense on the same day. -/
def df_c2 : List Txn := [⟨739000, "Income", 100, ""⟩, ⟨739000, "Food", 100, ""⟩]

/-- Fixture: a single current-window expense. -/
def df_c4 : List Txn := [⟨739000, "Food", 100, ""⟩]

/-- Fixture: three expense records `{10, 20, 30}` on three consecutive days. -/
def df_c7 : List Txn :=
  [⟨739000, "A", 10, ""⟩, ⟨739001, "A", 20, ""⟩, ⟨739002, "A", 30, ""⟩]

/-- Fixture: a transaction whose category is the lowercase string "income". -/
def txn_c9 : Txn := ⟨739000, "income", 50, ""⟩

/-- Fixture: an environment whose generative call always raises. -/
def env_fail : AIEnv :=
  { gemini := fun _ => .error (.other "boom")
    granite := fun _ => .error (.other "boom")
    render_table := fun _ => ""
    fmt_money2 := fun _ => "" }

/-- Fixture: an environment that classifies as CATEGORIZATION and whose
categorization service raises. -/
def env_cat : AIEnv :=
  { gemini := fun _ => .ok "CATEGORIZATION"
    granite := fun _ => .error (.other "down")
    render_table := fun _ => ""
    fmt_money2 := fun _ => "" }

/-- Fixture: a `json.loads` that always fails to decode. -/
def loads_none : String → Option Json := fun _ => none

/-- Fixture: trivial number formatting. -/
def fm0 : NumberFmt := ⟨fun _ => "", fun _ => ""⟩

/-- Fixture: a concrete metrics snapshot (all-zero). -/
def snap_c5 : Snapshot := ⟨30, 0, 0, 0, 0, [], 0, 0, 0, []⟩

/-- Fixture: trivial `,.2f` formatting. -/
def fmt_c7 : Rat → String := fun _ => ""

/-! ### Helper lemmas -/

/-- A list is a prefix of itself (for the substring-containment helper). -/
theorem isPrefixOf_self (l : List Char) : l.isPrefixOf l = true := by
  induction l with
  | nil => rfl
  | cons a as ih => simp [List.isPrefixOf, ih]

/-- A suffix is contained as a substring. -/
theorem list_contains_append_self (n p : List Char) : list_contains n (p ++ n) = true := by
  induction p with
  | nil =>
    cases n with
    | nil => rfl
    | cons a as => simp [list_contains, isPrefixOf_self]
  | cons b bs ih => simp [list_contains, ih]

/-- A String suffix is contained as a substring. -/
theorem pySubstrIn_append_self (p n : String) : pySubstrIn n (p ++ n) = true := by
  unfold pySubstrIn
  have : (p ++ n).toList = p.toList ++ n.toList := by
    simp [String.toList]
  rw [this]
  exact list_contains_append_self _ _

/-- `round_half_even` of a nonnegative number is nonnegative. -/
theorem round_half_even_nonneg (q : Rat) (h : 0 ≤ q) : 0 ≤ round_half_even q := by
  unfold round_half_even
  have hf : (0 : Int) ≤ ⌊q⌋ := Int.floor_nonneg.mpr h
  split_ifs <;> omega

/-- `round_half_even` never overshoots an integer upper bound. -/
theorem round_half_even_le (q : Rat) (B : Int) (h : q ≤ (B : Rat)) :
    round_half_even q ≤ B := by
  unfold round_half_even
  have hf : ⌊q⌋ ≤ B := by
    have := Int.floor_le_floor h
    rwa [Int.floor_intCast] at this
  have key : ∀ hr : (1 / 2 : Rat) ≤ q - (⌊q⌋ : Rat), ⌊q⌋ + 1 ≤ B := by
    intro hr
    by_contra hc
    push_neg at hc
    have hfB : ⌊q⌋ = B := le_antisymm hf (by omega)
    have h1 : (B : Rat) + 1 / 2 ≤ q := by
      have := hr
      rw [hfB] at this
      linarith
    linarith
  split_ifs with h1 h2 h3
  · exact hf
  · exact key (not_lt.mp h1)
  · exact hf
  · exact key (not_lt.mp h1)

/-- `quantize10` of a nonnegative number is nonnegative. -/
theorem quantize10_nonneg (q : Rat) (h : 0 ≤ q) : 0 ≤ quantize10 q := by
  unfold quantize10
  apply div_nonneg _ (by norm_num)
  exact_mod_cast round_half_even_nonneg _ (by positivity)

/-- `quantize10` never overshoots a bound that is an integer multiple of
`10^-10`. -/
theorem quantize10_le (q : Rat) (B : Int) (h : q * 10 ^ 10 ≤ (B : Rat)) :
    quantize10 q ≤ (B : Rat) / 10 ^ 10 := by
  unfold quantize10
  rw [div_le_div_iff_of_pos_right (by norm_num : (0 : Rat) < 10 ^ 10)]
  exact_mod_cast round_half_even_le _ _ h

/-- Both bounds of `_decimal_from_text`: an accepted amount lies in
`[0, MAX_AMOUNT_DEC]` (the source rejects `d < 0 or d > MAX_AMOUNT_DEC`
before the optional quantize step, and quantizing preserves the range). -/
theorem decimal_from_text_bounds (t : String) (d : Rat)
    (h : decimal_from_text t = some d) : 0 ≤ d ∧ d ≤ MAX_AMOUNT_DEC := by
  unfold decimal_from_text at h
  by_cases h0 : (normalize_amount_text t == "") = true
  · rw [if_pos h0] at h; exact absurd h (by simp)
  · rw [if_neg h0] at h
    cases hq : decimal_of_string (normalize_amount_text t) with
    | none => rw [hq] at h; exact absurd h (by simp)
    | some p =>
      rw [hq] at h
      obtain ⟨d0, fr⟩ := p
      dsimp only at h
      by_cases hbad : (d0 < 0 ∨ MAX_AMOUNT_DEC < d0)
      · rw [if_pos hbad] at h; exact absurd h (by simp)
      · rw [if_neg hbad] at h
        push_neg at hbad
        obtain ⟨hlo', hhi'⟩ := hbad
        by_cases hfr : 10 < fr
        · rw [if_pos hfr] at h
          obtain rfl : quantize10 d0 = d := by simpa using h
          refine ⟨quantize10_nonneg _ hlo', ?_⟩
          have hb : d0 * 10 ^ 10 ≤ ((9999999999999999999999 : Int) : Rat) := by
            have : d0 ≤ (9999999999999999999999 : Rat) / 10 ^ 10 := hhi'
            rw [le_div_iff₀ (by norm_num : (0 : Rat) < 10 ^ 10)] at this
            exact_mod_cast this
          have := quantize10_le d0 9999999999999999999999 hb
          unfold MAX_AMOUNT_DEC
          exact le_trans this (by norm_num)
        · rw [if_neg hfr] at h
          obtain rfl : d0 = d := by simpa using h
          exact ⟨hlo', hhi'⟩

/-- Concrete amount parse used both by the amount-parser claim and by the
sidebar-invariant witness. -/
theorem decimal_from_text_example :
    decimal_from_text "₹12,000.50" = some (12000.5 : Rat) := by
  have hn : normalize_amount_text "₹12,000.50" = "12000.50" := by decide
  have hs : split_on_char '.' ("12000.50".toList) =
      [['1', '2', '0', '0', '0'], ['5', '0']] := by decide
  have hd : decimal_of_string "12000.50" = some (12000 + 50 / 10 ^ 2, 2) := by
    have h1 : digits_to_nat ['1', '2', '0', '0', '0'] = 12000 := by decide
    have h2 : digits_to_nat ['5', '0'] = 50 := by decide
    unfold decimal_of_string
    rw [hs]
    dsimp only
    rw [if_pos (by decide), h1, h2]
    norm_num
  unfold decimal_from_text
  rw [hn]
  rw [if_neg (by decide), hd]
  dsimp only
  rw [if_neg (by norm_num [MAX_AMOUNT_DEC])]
  rw [if_neg (by norm_num)]
  norm_num

/-! ### Claim theorems -/

/-- C1: For every free-text query and every transaction table, the Intent
Router (`get_ai_response`) returns a user-facing string and never raises:
whenever the try body raises (any exception during classification or
generation), the result is the apologetic string embedding the error
detail. -/
theorem claim_C1_router_never_raises :
    ∀ (env : AIEnv) (q : String) (df : List Txn) (e : PyErr),
      get_ai_response_body env q df = Except.error e →
      get_ai_response env q df = apology_string e ∧
        pySubstrIn (py_err_detail e) (get_ai_response env q df) = true := by
  intro env q df e h
  have hr : get_ai_response env q df = apology_string e := by
    unfold get_ai_response
    rw [h]
  refine ⟨hr, ?_⟩
  rw [hr]
  cases e with
  | googleAPICallError m => exact pySubstrIn_append_self _ _
  | other m => exact pySubstrIn_append_self _ _

/-- C1 witness: with a generative call that raises, the router returns the
apologetic string. -/
theorem witness_C1 :
    get_ai_response env_fail "hello" [] = apology_string (PyErr.other "boom") :=
  (claim_C1_router_never_raises env_fail "hello" [] (PyErr.other "boom") rfl).1

/-- C2 counterexample: a table whose current window has income 100 and
expense 100 gives `savings_rate_pct = 0` with `income > 0`, so
"`savings_rate_pct` is 0 exactly when `income <= 0`" is false as an iff. -/
theorem counterexample_C2_savings_rate_iff :
    ¬ ((last_n_days_metrics df_c2 739000 30).savings_rate_pct = 0 ↔
        (last_n_days_metrics df_c2 739000 30).income ≤ 0) := by
  have h1 : income_rows_metrics (current_window df_c2 739000 30) =
      [⟨739000, "Income", 100, ""⟩] := by decide
  have h2 : expense_rows_metrics (current_window df_c2 739000 30) =
      [⟨739000, "Food", 100, ""⟩] := by decide
  norm_num [last_n_days_metrics, h1, h2, sum_amounts]

/-- C2 (amended): `savings_rate_pct = net/income*100` when `income > 0`
and `0` otherwise; in particular it is 0 whenever `income ≤ 0` (but it can
also be 0 with positive income, namely when `net = 0`). -/
theorem claim_C2_savings_rate :
    ∀ (df : List Txn) (today : Int) (days : Nat),
      (last_n_days_metrics df today days).savings_rate_pct =
        (if 0 < (last_n_days_metrics df today days).income then
          (last_n_days_metrics df today days).net /
            (last_n_days_metrics df today days).income * 100
        else 0) ∧
      ((last_n_days_metrics df today days).income ≤ 0 →
        (last_n_days_metrics df today days).savings_rate_pct = 0) := by
  intro df today days
  have h : (last_n_days_metrics df today days).savings_rate_pct =
      (if 0 < (last_n_days_metrics df today days).income then
        (last_n_days_metrics df today days).net /
          (last_n_days_metrics df today days).income * 100
      else 0) := rfl
  refine ⟨h, fun hle => ?_⟩
  rw [h, if_neg (not_lt.mpr hle)]

/-- C2 witness: on the empty table the income is `0 ≤ 0` and the savings
rate is 0. -/
theorem witness_C2 :
    (last_n_days_metrics [] 0 30).income ≤ 0 ∧
      (last_n_days_metrics [] 0 30).savings_rate_pct = 0 :=
  ⟨by decide, (claim_C2_savings_rate [] 0 30).2 (by decide)⟩

/-- C3: `_local_status` evaluates exactly five rules in order with
first match winning, and the three sample verdicts hold. -/
theorem claim_C3_weather_rules :
    (∀ m : Snapshot, local_status m = first_match weather_rules m) ∧
    local_status (snapshot_of 0 100 []) = (Weather.THUNDERSTORMS, "⛈️") ∧
    local_status (snapshot_of 1000 600 []) = (Weather.CLEAR_SKIES, "☀️") ∧
    local_status (snapshot_of 1000 1100 []) = (Weather.LIGHT_SHOWERS, "🌧️") := by
  refine ⟨?_, ?_, ?_, ?_⟩
  · intro m
    simp only [local_status, first_match, weather_rules, decide_eq_true_eq, if_true]
  · norm_num [local_status, snapshot_of, big_spike]
  · norm_num [local_status, snapshot_of, big_spike]
  · norm_num [local_status, snapshot_of, big_spike]

/-- C4: `category_spikes` has length at most 3, is sorted by `pct_change`
descending with ties broken by `delta` descending, and every element is
`mk_spike` of one of the top-5 current expense categories (so `prev` is
the previous-window sum with 0 for an absent category, `delta = cur - prev`
and `pct_change` as specified). -/
theorem claim_C4_category_spikes :
    ∀ (df : List Txn) (today : Int) (days : Nat),
      ((last_n_days_metrics df today days).category_spikes).length ≤ 3 ∧
      List.Sorted spike_order ((last_n_days_metrics df today days).category_spikes) ∧
      ∀ s ∈ (last_n_days_metrics df today days).category_spikes,
        ∃ cv ∈ top_categories (expense_rows_metrics (current_window df today days)),
          s = mk_spike (expense_rows_metrics (previous_window df today days)) cv := by
  intro df today days
  have hproj : (last_n_days_metrics df today days).category_spikes =
      category_spikes (expense_rows_metrics (current_window df today days))
        (expense_rows_metrics (previous_window df today days)) := rfl
  rw [hproj]
  unfold category_spikes
  refine ⟨?_, ?_, ?_⟩
  · rw [List.length_take]
    exact min_le_left _ _
  · exact (List.sorted_insertionSort spike_order _).sublist (List.take_sublist _ _)
  · intro s hs
    have hs' := List.mem_of_mem_take hs
    rw [(List.perm_insertionSort spike_order _).mem_iff] at hs'
    obtain ⟨cv, hcv, heq⟩ := List.mem_map.mp hs'
    exact ⟨cv, hcv, heq.symm⟩

/-- C4 witness: for the one-expense fixture the single spike is `mk_spike`
of the single top category. -/
theorem witness_C4 :
    ∃ cv ∈ top_categories (expense_rows_metrics (current_window df_c4 739000 30)),
      Spike.mk "Food" 100 0 100 100 =
        mk_spike (expense_rows_metrics (previous_window df_c4 739000 30)) cv := by
  have hcur : expense_rows_metrics (current_window df_c4 739000 30) =
      [⟨739000, "Food", 100, ""⟩] := by decide
  have hprev : expense_rows_metrics (previous_window df_c4 739000 30) = [] := by decide
  have hval : (last_n_days_metrics df_c4 739000 30).category_spikes =
      [⟨"Food", 100, 0, 100, 100⟩] := by
    have hproj : (last_n_days_metrics df_c4 739000 30).category_spikes =
        category_spikes (expense_rows_metrics (current_window df_c4 739000 30))
          (expense_rows_metrics (previous_window df_c4 739000 30)) := rfl
    rw [hproj, hcur, hprev]
    norm_num [category_spikes, top_categories, by_cat_desc, group_keys, cat_sum, sum_amounts,
      mk_spike, List.filter, List.dedup_cons_of_mem, List.dedup_cons_of_not_mem]
  exact (claim_C4_category_spikes df_c4 739000 30).2.2 ⟨"Food", 100, 0, 100, 100⟩
    (by rw [hval]; exact List.mem_singleton.mpr rfl)

/-- C5: whenever the AI weather call raises, or its text cannot be parsed
as JSON even after brace extraction, or the parsed object lacks a "status"
field, `compute_forecast` returns the local-rule fallback object, whose
explanation is empty and whose score is 65 for CLEAR_SKIES/PARTLY_CLOUDY
and 35 otherwise. -/
theorem claim_C5_forecast_fallback :
    ∀ (loads : String → Option Json) (fm : NumberFmt) (raw_res : Except Unit String)
      (m : Snapshot),
      (raw_res = Except.error () ∨
        (∃ t, raw_res = Except.ok t ∧ parse_json_maybe loads t = none) ∨
        (∃ t fs, raw_res = Except.ok t ∧ parse_json_maybe loads t = some (Json.obj fs) ∧
          fs.all (fun kv => !(kv.1 == "status")) = true)) →
      compute_forecast_obj loads fm raw_res m = some (fallback_obj fm m) ∧
        json_field (fallback_obj fm m) "explanation" = some (Json.str "") ∧
        json_field (fallback_obj fm m) "status" =
          some (Json.str (weather_name (local_status m).1)) ∧
        json_field (fallback_obj fm m) "score" =
          some (Json.num (if (local_status m).1 = Weather.CLEAR_SKIES ∨
            (local_status m).1 = Weather.PARTLY_CLOUDY then 65 else 35)) := by
  intro loads fm raw_res m h
  refine ⟨?_, rfl, rfl, rfl⟩
  unfold compute_forecast_obj
  rcases h with h | ⟨t, rfl, hp⟩ | ⟨t, fs, rfl, hp, hall⟩
  · rw [h]
  · dsimp only
    rw [hp]
  · dsimp only
    rw [hp]
    cases fs with
    | nil => rfl
    | cons kv rest =>
      have hany : (kv :: rest).any (fun kv => kv.1 == "status") = false := by
        rw [← Bool.not_eq_true, List.any_eq_true]
        rintro ⟨x, hx, hpx⟩
        have := (List.all_eq_true.mp hall) x hx
        simp only [Bool.not_eq_true'] at this
        rw [this] at hpx
        exact Bool.false_ne_true hpx
      simp only [pyTruthy, List.isEmpty_cons, Bool.not_false, if_true, pyContainsStatus, hany]

/-- C5 witness: an unparseable AI response text triggers the fallback
object. -/
theorem witness_C5 :
    compute_forecast_obj loads_none fm0 (Except.ok "no json") snap_c5 =
      some (fallback_obj fm0 snap_c5) :=
  (claim_C5_forecast_fallback loads_none fm0 (Except.ok "no json") snap_c5
    (Or.inr (Or.inl ⟨"no json", rfl, rfl⟩))).1

/-- C6: when the classified intent contains CATEGORIZATION, the router
strips "categorize" from the (lowercased) query and calls the
categorization service with the remainder; a raised service call makes the
category exactly "Other"; and the sample query strips to
"starbucks coffee". -/
theorem claim_C6_categorization_route :
    (∀ (env : AIEnv) (q : String) (df : List Txn) (t : String),
      env.gemini (classifier_prompt q) = Except.ok t →
      pySubstrIn "CATEGORIZATION" (pyUpper (pyStrip t)) = true →
      get_ai_response env q df =
        "The transaction \x27" ++ stripped_description q ++
          "\x27 is best categorized as: **" ++
          get_transaction_category env (stripped_description q) ++ "**" ∧
      (∀ e, env.granite (categorize_prompt (stripped_description q)) = Except.error e →
        get_transaction_category env (stripped_description q) = "Other")) ∧
    stripped_description "categorize starbucks coffee" = "starbucks coffee" := by
  constructor
  · intro env q df t hok hsub
    constructor
    · have hbody : get_ai_response_body env q df =
          Except.ok ("The transaction \x27" ++ stripped_description q ++
            "\x27 is best categorized as: **" ++
            get_transaction_category env (stripped_description q) ++ "**") := by
        unfold get_ai_response_body
        rw [hok]
        simp only [Except.bind, bind, hsub, if_true]
        rfl
      unfold get_ai_response
      rw [hbody]
    · intro e he
      unfold get_transaction_category
      rw [he]
  · decide

/-- C6 witness: the sample query through a CATEGORIZATION classification
with a raising categorization service yields category "Other". -/
theorem witness_C6 :
    get_ai_response env_cat "categorize starbucks coffee" [] =
      "The transaction \x27starbucks coffee\x27 is best categorized as: **Other**" := by
  have h := claim_C6_categorization_route.1 env_cat "categorize starbucks coffee" []
    "CATEGORIZATION" rfl (by decide)
  rw [h.1, h.2 (PyErr.other "down") rfl, claim_C6_categorization_route.2]
  rfl

/-- C7: the trend forecast always produces exactly 30 projected values,
each clamped to be nonnegative; the degree-1 least-squares slope for
amounts 10, 20, 30 on any 3 consecutive days is 10 > 0; and when the
length guards pass, `get_forecast` reports the sum of the 30 clamped
predictions as the headline total. -/
theorem claim_C7_trend_forecast :
    (∀ pts : List (Int × Rat),
      (forecast_preds pts).length = 30 ∧ ∀ y ∈ forecast_preds pts, 0 ≤ y) ∧
    (∀ d : Int, fit_slope [(d, 10), (d + 1, 20), (d + 2, 30)] = 10) ∧
    (∀ (fmt : Rat → String) (df : List Txn),
      ¬ df.length < 3 → ¬ (expense_rows_forecast df).length < 3 →
      get_forecast fmt df =
        forecast_message fmt (total_forecast (daily_expenses (expense_rows_forecast df)))
          (avg_daily (daily_expenses (expense_rows_forecast df)))) ∧
    daily_expenses (expense_rows_forecast df_c7) =
      [(739000, 10), (739001, 20), (739002, 30)] ∧
    0 < fit_slope (daily_expenses (expense_rows_forecast df_c7)) := by
  have hdaily : daily_expenses (expense_rows_forecast df_c7) =
      [(739000, 10), (739001, 20), (739002, 30)] := by
    have h1 : expense_rows_forecast df_c7 = df_c7 := by decide
    have hu : unique_days df_c7 = [739000, 739001, 739002] := by decide
    have hf0 : df_c7.filter (fun t => t.date == 739000) = [⟨739000, "A", 10, ""⟩] := by decide
    have hf1 : df_c7.filter (fun t => t.date == 739001) = [⟨739001, "A", 20, ""⟩] := by decide
    have hf2 : df_c7.filter (fun t => t.date == 739002) = [⟨739002, "A", 30, ""⟩] := by decide
    simp only [daily_expenses, h1, hu, List.map_cons, List.map_nil, hf0, hf1, hf2]
    norm_num [sum_amounts]
  have hslope : ∀ d : Int, fit_slope [(d, 10), (d + 1, 20), (d + 2, 30)] = 10 := by
    intro d
    simp only [fit_slope, List.map_cons, List.map_nil, List.sum_cons, List.sum_nil,
      List.length_cons, List.length_nil]
    push_cast
    rw [div_eq_iff (by ring_nf; norm_num)]
    ring
  refine ⟨?_, hslope, ?_, hdaily, ?_⟩
  · intro pts
    constructor
    · unfold forecast_preds
      rw [List.length_map, List.length_range]
    · intro y hy
      simp only [forecast_preds, List.mem_map] at hy
      obtain ⟨i, _, heq⟩ := hy
      rw [← heq]
      split
      · exact le_refl 0
      · exact not_lt.mp (by assumption)
  · intro fmt df h3 he3
    unfold get_forecast
    rw [if_neg h3, if_neg he3]
  · rw [hdaily]
    have h10 := hslope 739000
    norm_num at h10
    rw [h10]
    norm_num

/-- C7 witness: the length guards pass for the 3-record fixture and its
headline total is the clamped-prediction sum; one concrete projected value
is nonnegative. -/
theorem witness_C7 :
    get_forecast fmt_c7 df_c7 =
      forecast_message fmt_c7 (total_forecast (daily_expenses (expense_rows_forecast df_c7)))
        (avg_daily (daily_expenses (expense_rows_forecast df_c7))) ∧
    (0 : Rat) ≤ 1 := by
  constructor
  · exact claim_C7_trend_forecast.2.2.1 fmt_c7 df_c7 (by decide) (by decide)
  · refine (claim_C7_trend_forecast.1 [(0, 1)]).2 1 ?_
    simp only [forecast_preds, List.mem_map]
    refine ⟨0, by simp, ?_⟩
    norm_num [fit_slope, fit_intercept, last_day]

/-- C8: the amount parser maps "₹12,000.50" to 12000.50, and any text
whose parsed decimal is negative or exceeds `MAX_AMOUNT_DEC` yields
`none`. -/
theorem claim_C8_amount_parsing :
    decimal_from_text "₹12,000.50" = some (12000.5 : Rat) ∧
    ∀ (text : String) (d : Rat) (fr : Nat),
      decimal_of_string (normalize_amount_text text) = some (d, fr) →
      (d < 0 ∨ MAX_AMOUNT_DEC < d) →
      decimal_from_text text = none := by
  refine ⟨decimal_from_text_example, ?_⟩
  intro text d fr h hbad
  unfold decimal_from_text
  by_cases h0 : (normalize_amount_text text == "") = true
  · rw [if_pos h0]
  · rw [if_neg h0, h]
    dsimp only
    rw [if_pos hbad]

/-- C8 witness: a thirteen-digit amount exceeds the maximum and is
rejected. -/
theorem witness_C8 : decimal_from_text "1000000000000" = none := by
  have hn : normalize_amount_text "1000000000000" = "1000000000000" := by decide
  refine claim_C8_amount_parsing.2 "1000000000000" ((1000000000000 : Nat) : Rat) 0 ?_ ?_
  · rw [hn]
    rfl
  · right
    rw [MAX_AMOUNT_DEC]
    push_cast
    norm_num

/-- C9: `get_forecast`'s expense filter (case-sensitive `!= 'Income'`)
keeps a transaction whose category is the lowercase "income", while the
Metrics Aggregator's partition treats the same transaction as income. -/
theorem claim_C9_income_case_divergence :
    expense_rows_forecast [txn_c9] = [txn_c9] ∧
    is_income txn_c9 = true ∧
    (last_n_days_metrics [txn_c9] 739000 30).income = 50 ∧
    (last_n_days_metrics [txn_c9] 739000 30).expense = 0 := by
  refine ⟨by decide, by decide, ?_, ?_⟩
  · have h : income_rows_metrics (current_window [txn_c9] 739000 30) = [txn_c9] := by decide
    show sum_amounts (income_rows_metrics (current_window [txn_c9] 739000 30)) = 50
    rw [h]
    norm_num [sum_amounts, txn_c9]
  · have h : expense_rows_metrics (current_window [txn_c9] 739000 30) = [] := by decide
    show sum_amounts (expense_rows_metrics (current_window [txn_c9] 739000 30)) = 0
    rw [h]
    norm_num [sum_amounts]

/-- C10: every amount the sidebar add or edit handlers write is in
`[0, MAX_AMOUNT_DEC]`: `amount_block` only returns such decimals, the
slider path stays within `[0, SLIDER_MAX]`, every row of the updated table
is either an old row or has a bounded amount, and an invalid amount leaves
the table unchanged. -/
theorem claim_C10_sidebar_amount_invariant :
    (∀ (mode : String) (sv : Rat) (ts : String) (d : Rat),
      amount_block mode sv ts = some d → 0 ≤ d ∧ d ≤ MAX_AMOUNT_DEC) ∧
    (∀ (sv : Rat) (ts : String) (d : Rat),
      amount_block "Use slider (bar)" sv ts = some d → 0 ≤ d ∧ d ≤ SLIDER_MAX) ∧
    (∀ (df : List Txn) (mode : String) (sv : Rat) (ts : String) (dt : Int)
      (cat note : String), ∀ r ∈ add_action df mode sv ts dt cat note,
      r ∈ df ∨ (0 ≤ r.amount ∧ r.amount ≤ MAX_AMOUNT_DEC)) ∧
    (∀ (df : List Txn) (idx : Nat) (mode : String) (sv : Rat) (ts : String) (dt : Int)
      (cat note : String), ∀ r ∈ edit_action df idx mode sv ts dt cat note,
      r ∈ df ∨ (0 ≤ r.amount ∧ r.amount ≤ MAX_AMOUNT_DEC)) ∧
    (∀ (mode : String) (sv : Rat) (ts : String), amount_block mode sv ts = none →
      (∀ (df : List Txn) (dt : Int) (cat note : String),
        add_action df mode sv ts dt cat note = df) ∧
      (∀ (df : List Txn) (idx : Nat) (dt : Int) (cat note : String),
        edit_action df idx mode sv ts dt cat note = df)) := by
  have hslider : ∀ sv : Rat, 0 ≤ quantize10 (slider_widget_value sv) ∧
      quantize10 (slider_widget_value sv) ≤ SLIDER_MAX := by
    intro sv
    have h0 : 0 ≤ slider_widget_value sv := by
      unfold slider_widget_value SLIDER_MIN
      exact le_max_left 0 _
    have h1 : slider_widget_value sv ≤ SLIDER_MAX := by
      unfold slider_widget_value SLIDER_MIN SLIDER_MAX
      exact max_le (by norm_num) (min_le_right _ _)
    refine ⟨quantize10_nonneg _ h0, ?_⟩
    have hq : quantize10 (slider_widget_value sv) ≤
        ((1000000000000000 : Int) : Rat) / 10 ^ 10 := by
      apply quantize10_le
      calc slider_widget_value sv * 10 ^ 10 ≤ SLIDER_MAX * 10 ^ 10 :=
            mul_le_mul_of_nonneg_right h1 (by norm_num)
        _ ≤ _ := by norm_num [SLIDER_MAX]
    exact le_trans hq (by norm_num [SLIDER_MAX])
  have hblock : ∀ (mode : String) (sv : Rat) (ts : String) (d : Rat),
      amount_block mode sv ts = some d → 0 ≤ d ∧ d ≤ MAX_AMOUNT_DEC := by
    intro mode sv ts d h
    unfold amount_block at h
    by_cases hm : (mode == "Use slider (bar)") = true
    · rw [if_pos hm] at h
      obtain rfl : quantize10 (slider_widget_value sv) = d := by simpa using h
      refine ⟨(hslider sv).1, le_trans (hslider sv).2 ?_⟩
      norm_num [SLIDER_MAX, MAX_AMOUNT_DEC]
    · rw [if_neg hm] at h
      exact decimal_from_text_bounds ts d h
  refine ⟨hblock, ?_, ?_, ?_, ?_⟩
  · intro sv ts d h
    unfold amount_block at h
    rw [if_pos (by decide)] at h
    obtain rfl : quantize10 (slider_widget_value sv) = d := by simpa using h
    exact hslider sv
  · intro df mode sv ts dt cat note r hr
    unfold add_action at hr
    cases ha : amount_block mode sv ts with
    | none => rw [ha] at hr; exact Or.inl hr
    | some d =>
      rw [ha] at hr
      unfold append_transaction at hr
      rcases List.mem_append.mp hr with h | h
      · exact Or.inl h
      · right
        rw [List.mem_singleton.mp h]
        exact hblock mode sv ts d ha
  · intro df idx mode sv ts dt cat note r hr
    unfold edit_action at hr
    cases ha : amount_block mode sv ts with
    | none => rw [ha] at hr; exact Or.inl hr
    | some d =>
      rw [ha] at hr
      unfold update_transaction at hr
      rcases List.mem_or_eq_of_mem_set hr with h | h
      · exact Or.inl h
      · right
        rw [h]
        exact hblock mode sv ts d ha
  · intro mode sv ts h
    constructor
    · intro df dt cat note
      unfold add_action
      rw [h]
    · intro df idx dt cat note
      unfold edit_action
      rw [h]

/-- C10 witness: the manual path accepts "₹12,000.50" within bounds, the
appended row is bounded, and an invalid text "abc" leaves the table
unchanged. -/
theorem witness_C10 :
    (0 ≤ (12000.5 : Rat) ∧ (12000.5 : Rat) ≤ MAX_AMOUNT_DEC) ∧
    ((Txn.mk 739000 "Food" (12000.5 : Rat) "") ∈ ([] : List Txn) ∨
      (0 ≤ (Txn.mk 739000 "Food" (12000.5 : Rat) "").amount ∧
        (Txn.mk 739000 "Food" (12000.5 : Rat) "").amount ≤ MAX_AMOUNT_DEC)) ∧
    add_action [] "Type exact value" 0 "abc" 739000 "Food" "" = [] := by
  have hab : amount_block "Type exact value" 0 "₹12,000.50" = some (12000.5 : Rat) := by
    unfold amount_block
    rw [if_neg (by decide)]
    exact decimal_from_text_example
  refine ⟨claim_C10_sidebar_amount_invariant.1 "Type exact value" 0 "₹12,000.50" _ hab,
    ?_, ?_⟩
  · apply claim_C10_sidebar_amount_invariant.2.2.1 [] "Type exact value" 0 "₹12,000.50"
      739000 "Food" ""
    have hval : add_action [] "Type exact value" 0 "₹12,000.50" 739000 "Food" "" =
        [Txn.mk 739000 "Food" (12000.5 : Rat) ""] := by
      unfold add_action
      rw [hab]
      rfl
    rw [hval]
    exact List.mem_singleton.mpr rfl
  · exact (claim_C10_sidebar_amount_invariant.2.2.2.2 "Type exact value" 0 "abc"
      (by decide)).1 [] 739000 "Food" ""

end Finartha
